import Mathlib

/-!
Verification development for the OpenAlex bibliometric extractor
(src/extractor_datos_openalex.py).

The Python program is shallowly embedded: every method of the
OpenAlexExtractor class that the verified properties mention becomes a
Lean function over explicit inputs.  HTTP responses are modelled as
`Option` values (`none` = `query_api` returned `None`, either because the
status code was not 200 or because the expected key such as `meta`,
`group_by` or `results` was absent — the Python code treats both
identically at every call site).  Python exceptions that the embedded
fragments can raise (`ZeroDivisionError` from `count / total`,
`KeyError` from `pandas.DataFrame.sort_values` on a missing column) are
modelled with `Except PyErr`.  Each extraction step returns a `StepTrace`
recording its Python return value (or raised exception), how many calls
to `query_api` it performed (each such call issues exactly one
`requests.get`: the Python body has a single, unconditional request and
no retry loop), and which JSON data files it wrote.

The matplotlib layer of the visualisation functions is not modelled; of
each `visualize_*` function we embed the pandas front end (DataFrame
construction from the input records and the `sort_values` calls), which
is the part that can raise on empty or partial input.  Row order after
sorting is irrelevant to every property below and is not modelled.
-/

/-- Python exceptions raised by the embedded code fragments. -/
inductive PyErr where
  | zeroDivisionError : PyErr
  | keyError : PyErr
deriving DecidableEq, Repr

/-- One element of a `group_by` API response: `{'key': ..., 'count': ...}`. -/
structure GroupByItem where
  key : String
  count : ℕ
deriving DecidableEq, Repr

/-- Trace of one extraction step: its Python result (or uncaught
exception), the number of `query_api` calls it made, and the JSON data
files it wrote to the data directory. -/
structure StepTrace (α : Type) where
  result : Except PyErr α
  queries : ℕ
  writes : List String

/-- Python dict assignment `d[k] = v` on an insertion-ordered
association list: overwrite in place if the key exists, append
otherwise. -/
def dictUpsert {α : Type} (d : List (String × α)) (k : String) (v : α) :
    List (String × α) :=
  if k ∈ d.map Prod.fst then d.map (fun p => if p.1 = k then (k, v) else p)
  else d ++ [(k, v)]

/-- Embedding of the Python expression `(count / total) * 100` on
non-negative integer counts: true division raises `ZeroDivisionError`
when `total` is zero and otherwise yields an exact rational. -/
def percentage (count total : ℕ) : Except PyErr ℚ :=
  if total = 0 then .error .zeroDivisionError
  else .ok ((count : ℚ) / (total : ℚ) * 100)

/-- Embedding of the group-by accumulation loops of `get_oa_stats`
(lines 161-171) and `get_international_collaboration` (lines 383-392):
walk the `group_by` items in order, skip a key when `skip` says so (the
collaboration loop skips `'EC'`; the OA-types loop skips nothing),
compute `count / total * 100` (propagating `ZeroDivisionError`
immediately, as the Python loop would), and store the pair under the key
with Python dict semantics. -/
def groupByDict (total : ℕ) (skip : String → Bool)
    (d : List (String × ℕ × ℚ)) : List GroupByItem →
    Except PyErr (List (String × ℕ × ℚ))
  | [] => .ok d
  | it :: rest =>
    if skip it.key then groupByDict total skip d rest
    else
      match percentage it.count total with
      | .error e => .error e
      | .ok p => groupByDict total skip (dictUpsert d it.key (it.count, p)) rest

/-- Body of the `oa_types_data` loop of `get_oa_stats` (lines 159-171):
every `group_by` key is kept, each with `count` and
`count / total_publications * 100`. -/
def oaTypesData (total : ℕ) (items : List GroupByItem) :
    Except PyErr (List (String × ℕ × ℚ)) :=
  groupByDict total (fun _ => false) [] items

/-- Body of the `collab_data` loop of `get_international_collaboration`
(lines 382-392): identical to the OA-types loop except that the key
`'EC'` is skipped before any computation on it. -/
def collabData (total : ℕ) (items : List GroupByItem) :
    Except PyErr (List (String × ℕ × ℚ)) :=
  groupByDict total (fun k => k == "EC") [] items

deriving instance DecidableEq for Except

example : percentage 1 4 = .ok 25 := by norm_num [percentage]
example : percentage 3 0 = .error .zeroDivisionError := by norm_num [percentage]
example : oaTypesData 4 [⟨"gold", 1⟩, ⟨"closed", 3⟩] =
    .ok [("gold", 1, 25), ("closed", 3, 75)] := by
  norm_num [oaTypesData, groupByDict, percentage, dictUpsert]
  all_goals decide
example : collabData 4 [⟨"EC", 9⟩, ⟨"US", 2⟩] = .ok [("US", 2, 50)] := by
  norm_num [collabData, groupByDict, percentage, dictUpsert]
  all_goals decide
example : collabData 0 [⟨"US", 2⟩] = .error .zeroDivisionError := by
  norm_num [collabData, groupByDict, percentage, dictUpsert]
  all_goals decide

/-- Values held in DataFrame cells: strings, exact numbers, or Python
`None` (for absent optional values of present columns). -/
inductive PyVal where
  | s : String → PyVal
  | n : ℚ → PyVal
  | nullv : PyVal
deriving DecidableEq, Repr

/-- One record passed to `pd.DataFrame`: a Python dict from column name
to value, as an insertion-ordered association list. -/
abbrev Row := List (String × PyVal)

/-- Columns of `pd.DataFrame(rows)`: the union of the keys of the record
dicts.  `pd.DataFrame([])` has no columns. -/
def dfColumns (df : List Row) : List String :=
  ((df.map (fun r => r.map Prod.fst)).flatten).dedup

/-- Embedding of `DataFrame.sort_values(col)`: raises `KeyError` when
`col` is not among the frame's columns (in particular always on the
empty frame built from an empty record list), otherwise succeeds.  The
resulting row order is irrelevant to every property proved below and is
not modelled: the rows are returned unchanged. -/
def df_sort_values (df : List Row) (col : String) : Except PyErr (List Row) :=
  if col ∈ dfColumns df then .ok df else .error .keyError

/-- Value of `fields_data[area_id]` as built by `get_data_by_field`:
`nombre`, `publicaciones` and `porcentaje` are always present;
`publicaciones_oa`/`porcentaje_oa` only when the per-area OA count query
succeeded, and `oa_status` only when the per-area group-by query also
succeeded. -/
structure AreaData where
  nombre : String
  publicaciones : ℕ
  porcentaje : ℚ
  publicaciones_oa : Option ℕ
  porcentaje_oa : Option ℚ
  oa_status : Option (List (String × ℕ × ℚ))
deriving DecidableEq, Repr

/-- Record appended to `areas_list` by `visualize_fields_data` (lines
483-500): the four mandatory keys, then `porcentaje_oa` when present,
then one `oa_<type>` key per `oa_status` entry. -/
def areaRow (id : String) (d : AreaData) : Row :=
  [("id", PyVal.s id), ("nombre", PyVal.s d.nombre),
   ("publicaciones", PyVal.n d.publicaciones),
   ("porcentaje", PyVal.n d.porcentaje)] ++
  (match d.porcentaje_oa with
   | some p => [("porcentaje_oa", PyVal.n p)]
   | none => []) ++
  (match d.oa_status with
   | some oas => oas.map (fun e => ("oa_" ++ e.1, PyVal.n e.2.2))
   | none => [])

/-- Pandas front end of `visualize_fields_data` (lines 482-528): build
the record list, `sort_values('publicaciones')` (raises `KeyError` on an
empty frame), and — only when the `porcentaje_oa` column exists —
`sort_values('porcentaje_oa')`.  The matplotlib chart emission that
follows is not modelled. -/
def visualize_fields_data_front (fields_data : List (String × AreaData)) :
    Except PyErr Unit := do
  let df := fields_data.map (fun p => areaRow p.1 p.2)
  let dfSorted ← df_sort_values df "publicaciones"
  let _ := dfSorted.take 10
  if "porcentaje_oa" ∈ dfColumns df then do
    let _ ← df_sort_values df "porcentaje_oa"
    pure ()
  else pure ()

/-- Optional string like `author.get('id')`: Python `None` when absent. -/
def pyOptStr : Option String → PyVal
  | some s => PyVal.s s
  | none => PyVal.nullv

/-- Author record built by `get_top_authors` (lines 303-311) and saved
to autores_destacados.json. -/
structure AuthorData where
  id : Option String
  nombre : Option String
  orcid : Option String
  institucion : String
  institucion_id : String
  publicaciones_total : ℕ
  citas : ℕ
deriving DecidableEq, Repr

/-- DataFrame record of one author, as `visualize_top_authors` sees it:
all seven keys are always present. -/
def authorRow (a : AuthorData) : Row :=
  [("id", pyOptStr a.id), ("nombre", pyOptStr a.nombre),
   ("orcid", pyOptStr a.orcid), ("institucion", PyVal.s a.institucion),
   ("institucion_id", PyVal.s a.institucion_id),
   ("publicaciones_total", PyVal.n a.publicaciones_total),
   ("citas", PyVal.n a.citas)]

/-- Pandas front end of `visualize_top_authors` (lines 586-609):
`sort_values('publicaciones_total').head(15)`, then on that frame
`sort_values('citas')`.  Both sorts raise `KeyError` exactly when the
input list is empty. -/
def visualize_top_authors_front (top_authors : List AuthorData) :
    Except PyErr Unit := do
  let df := top_authors.map authorRow
  let dfSorted ← df_sort_values df "publicaciones_total"
  let _ ← df_sort_values (dfSorted.take 15) "citas"
  pure ()

/-- Institution record built by `get_top_institutions` (lines 345-351)
and saved to instituciones_destacadas.json. -/
structure InstData where
  id : Option String
  nombre : Option String
  tipo : Option String
  publicaciones : ℕ
  citas : ℕ
deriving DecidableEq, Repr

/-- DataFrame record of one institution in `visualize_top_institutions`. -/
def instRow (i : InstData) : Row :=
  [("id", pyOptStr i.id), ("nombre", pyOptStr i.nombre),
   ("tipo", pyOptStr i.tipo), ("publicaciones", PyVal.n i.publicaciones),
   ("citas", PyVal.n i.citas)]

/-- Pandas front end of `visualize_top_institutions` (lines 656-659). -/
def visualize_top_institutions_front (top_institutions : List InstData) :
    Except PyErr Unit := do
  let _ ← df_sort_values (top_institutions.map instRow) "publicaciones"
  pure ()

/-- DataFrame record of one collaborating country in
`visualize_international_collaboration` (lines 687-692): the OpenAlex
country-URL prefix is stripped from the key. -/
def collabRow (e : String × ℕ × ℚ) : Row :=
  [("pais", PyVal.s (e.1.replace "https://openalex.org/countries/" "")),
   ("publicaciones", PyVal.n e.2.1), ("porcentaje", PyVal.n e.2.2)]

/-- Pandas front end of `visualize_international_collaboration` (lines
686-697). -/
def visualize_international_collaboration_front
    (collab_data : List (String × ℕ × ℚ)) : Except PyErr Unit := do
  let _ ← df_sort_values (collab_data.map collabRow) "publicaciones"
  pure ()

example : visualize_fields_data_front [] = .error .keyError := by decide
example : visualize_top_authors_front [] = .error .keyError := by decide
example :
    visualize_top_authors_front [⟨none, none, none, "X", "", 3, 1⟩] = .ok () := by
  decide

/-- Base URL configured in `OpenAlexExtractor.__init__`. -/
def base_url : String := "https://api.openalex.org"

/-- Initial value of `self.total_publications` set in `__init__`
(line 66): zero until `get_general_stats` succeeds. -/
def initial_total_publications : ℕ := 0

/-- URL built by `query_api` (line 79). -/
def query_api_url (endpoint : String) : String := base_url ++ "/" ++ endpoint

/-- Parameters actually sent by `query_api` (lines 81-87): the caller's
dict (empty when `None`) with `mailto` set to the configured email,
passed to a single `requests.get` call. -/
def query_api_params (email : String)
    (params : Option (List (String × String))) : List (String × String) :=
  dictUpsert (params.getD []) "mailto" email

/-- Query parameters of `get_top_authors` (lines 293-297). -/
def params_authors : List (String × String) :=
  [("filter", "last_known_institution.country_code:EC"),
   ("sort", "works_count:desc"), ("per_page", "50")]

/-- Query parameters of `get_top_institutions` (lines 335-339). -/
def params_institutions : List (String × String) :=
  [("filter", "country_code:EC"), ("sort", "works_count:desc"),
   ("per_page", "25")]

/-- Embedding of `get_general_stats` (lines 95-127).  `resp` is
`results['meta']['count']` when the query succeeded and the response had
a `meta` key, `none` otherwise.  Returns the updated
`self.total_publications` together with the step trace; on failure the
field is left unchanged, nothing is written and `None` is returned. -/
def get_general_stats (total_publications : ℕ) (resp : Option ℕ) :
    ℕ × StepTrace (Option ℕ) :=
  match resp with
  | none => (total_publications, ⟨.ok none, 1, []⟩)
  | some c => (c, ⟨.ok (some c), 1, ["metadatos_generales.json"]⟩)

/-- Return value of `get_oa_stats` on full success (lines 180-184). -/
structure OAStats where
  total_oa : ℕ
  percentage_oa : ℚ
  oa_types : List (String × ℕ × ℚ)
deriving DecidableEq, Repr

/-- Embedding of `get_oa_stats` (lines 129-186).  `resp_oa` is the
`meta.count` of the `is_oa:true` query, `resp_oa_types` the `group_by`
list of the `oa_status` query (`none` models both a failed query and a
response without the expected key, which the code treats identically).
The division `total_oa / self.total_publications` on line 147 is
performed before the second query and is unguarded, so it raises
`ZeroDivisionError` when `total_publications` is zero.  The matplotlib
call `visualize_oa_types` is not modelled. -/
def get_oa_stats (total_publications : ℕ) (resp_oa : Option ℕ)
    (resp_oa_types : Option (List GroupByItem)) :
    StepTrace (Option OAStats) :=
  match resp_oa with
  | none => ⟨.ok none, 1, []⟩
  | some total_oa =>
    match percentage total_oa total_publications with
    | .error e => ⟨.error e, 1, []⟩
    | .ok percentage_oa =>
      match resp_oa_types with
      | none => ⟨.ok none, 2, []⟩
      | some items =>
        match oaTypesData total_publications items with
        | .error e => ⟨.error e, 2, []⟩
        | .ok data =>
          ⟨.ok (some ⟨total_oa, percentage_oa, data⟩), 2,
           ["datos_tipos_oa.json"]⟩

/-- Responses to the up-to-three queries `get_data_by_field` issues for
one knowledge area: total count, OA count, and OA-status group-by. -/
structure AreaResponses where
  meta : Option ℕ
  metaOA : Option ℕ
  oaTypes : Option (List GroupByItem)
deriving DecidableEq, Repr

/-- Per-area body of the `get_data_by_field` loop (lines 216-273),
paired with the number of queries the iteration issued.  A failed count
query skips the area (1 query); after a successful count query the OA
count query always runs, and the group-by query only after that one also
succeeds.  `count / self.total_publications` (line 229) and
`count_oa / count` (line 248) are unguarded divisions. -/
def processArea (total : ℕ) (nombre : String) (r : AreaResponses) :
    Except PyErr (Option AreaData) × ℕ :=
  match r.meta with
  | none => (.ok none, 1)
  | some count =>
    match percentage count total with
    | .error e => (.error e, 1)
    | .ok porcentaje =>
      match r.metaOA with
      | none => (.ok (some ⟨nombre, count, porcentaje, none, none, none⟩), 2)
      | some count_oa =>
        match percentage count_oa count with
        | .error e => (.error e, 2)
        | .ok porcentaje_oa =>
          match r.oaTypes with
          | none =>
            (.ok (some ⟨nombre, count, porcentaje, some count_oa,
                        some porcentaje_oa, none⟩), 3)
          | some items =>
            match oaTypesData count items with
            | .error e => (.error e, 3)
            | .ok oa_data =>
              (.ok (some ⟨nombre, count, porcentaje, some count_oa,
                          some porcentaje_oa, some oa_data⟩), 3)

/-- The loop of `get_data_by_field` over the fixed list of knowledge
areas, accumulating `fields_data` entries in order and the total number
of queries; an exception aborts the loop immediately. -/
def processAreas (total : ℕ) (areas : List (String × String))
    (resp : String → AreaResponses) :
    Except PyErr (List (String × AreaData)) × ℕ :=
  match areas with
  | [] => (.ok [], 0)
  | a :: rest =>
    match processArea total a.2 (resp a.1) with
    | (.error e, q) => (.error e, q)
    | (.ok none, q) =>
      match processAreas total rest resp with
      | (res, q2) => (res, q + q2)
    | (.ok (some d), q) =>
      match processAreas total rest resp with
      | (.error e, q2) => (.error e, q + q2)
      | (.ok l, q2) => (.ok ((a.1, d) :: l), q + q2)

/-- The thirteen knowledge areas hard-coded in `get_data_by_field`
(lines 198-212), as (concept id, name) pairs. -/
def areas_conocimiento : List (String × String) :=
  [("https://openalex.org/C41008148", "Computer science"),
   ("https://openalex.org/C86803240", "Biology"),
   ("https://openalex.org/C185592680", "Chemistry"),
   ("https://openalex.org/C127313418", "Engineering"),
   ("https://openalex.org/C71924100", "Medicine"),
   ("https://openalex.org/C33923547", "Physics"),
   ("https://openalex.org/C144133560", "Mathematics"),
   ("https://openalex.org/C162324750", "Economics"),
   ("https://openalex.org/C17744445", "Political science"),
   ("https://openalex.org/C138885662", "Education"),
   ("https://openalex.org/C39432304", "Environmental science"),
   ("https://openalex.org/C15744967", "Psychology"),
   ("https://openalex.org/C121332964", "Sociology")]

/-- Embedding of `get_data_by_field` (lines 188-282).  `resp` maps each
area id to the responses of its queries.  After the loop the method
writes datos_por_areas.json unconditionally — even when every query
failed and `fields_data` is empty — and only then calls
`visualize_fields_data`, whose pandas front end raises `KeyError` on the
empty dict. -/
def get_data_by_field (total : ℕ) (resp : String → AreaResponses) :
    StepTrace (List (String × AreaData)) :=
  match processAreas total areas_conocimiento resp with
  | (.error e, q) => ⟨.error e, q, []⟩
  | (.ok fields_data, q) =>
    match visualize_fields_data_front fields_data with
    | .error e => ⟨.error e, q, ["datos_por_areas.json"]⟩
    | .ok _ => ⟨.ok fields_data, q, ["datos_por_areas.json"]⟩

/-- One element of the `results` list of the authors query, with the
fields `get_top_authors` reads via `.get`; `none` models an absent key,
and for `last_known_institution` also a JSON `null` whose inner fields
the code then defaults. -/
structure Author where
  id : Option String
  display_name : Option String
  orcid : Option String
  lki_display_name : Option String
  lki_id : Option String
  works_count : Option ℕ
  cited_by_count : Option ℕ
deriving DecidableEq, Repr

/-- The `author_data` dict built on lines 303-311, with the `.get`
defaults of the source. -/
def mkAuthorData (a : Author) : AuthorData :=
  ⟨a.id, a.display_name, a.orcid, a.lki_display_name.getD "Desconocida",
   a.lki_id.getD "", a.works_count.getD 0, a.cited_by_count.getD 0⟩

/-- Embedding of `get_top_authors` (lines 284-324): on failure return
the empty list and write nothing; on success keep the first 20 results,
write autores_destacados.json, then render (whose pandas front end
raises on an empty result list). -/
def get_top_authors (resp : Option (List Author)) :
    StepTrace (List AuthorData) :=
  match resp with
  | none => ⟨.ok [], 1, []⟩
  | some results =>
    let top_authors := (results.take 20).map mkAuthorData
    match visualize_top_authors_front top_authors with
    | .error e => ⟨.error e, 1, ["autores_destacados.json"]⟩
    | .ok _ => ⟨.ok top_authors, 1, ["autores_destacados.json"]⟩

/-- One element of the `results` list of the institutions query. -/
structure Institution where
  id : Option String
  display_name : Option String
  type : Option String
  works_count : Option ℕ
  cited_by_count : Option ℕ
deriving DecidableEq, Repr

/-- The `inst_data` dict built on lines 345-351. -/
def mkInstData (i : Institution) : InstData :=
  ⟨i.id, i.display_name, i.type, i.works_count.getD 0, i.cited_by_count.getD 0⟩

/-- Embedding of `get_top_institutions` (lines 326-364): first 15
results, instituciones_destacadas.json written on success. -/
def get_top_institutions (resp : Option (List Institution)) :
    StepTrace (List InstData) :=
  match resp with
  | none => ⟨.ok [], 1, []⟩
  | some results =>
    let top_institutions := (results.take 15).map mkInstData
    match visualize_top_institutions_front top_institutions with
    | .error e => ⟨.error e, 1, ["instituciones_destacadas.json"]⟩
    | .ok _ => ⟨.ok top_institutions, 1, ["instituciones_destacadas.json"]⟩

/-- Embedding of `get_international_collaboration` (lines 366-403): on
a failed or key-less response return the empty dict and write nothing;
otherwise build `collab_data` (skipping key `'EC'`, unguarded division
by `self.total_publications`), write colaboracion_internacional.json,
then render. -/
def get_international_collaboration (total : ℕ)
    (resp : Option (List GroupByItem)) :
    StepTrace (List (String × ℕ × ℚ)) :=
  match resp with
  | none => ⟨.ok [], 1, []⟩
  | some items =>
    match collabData total items with
    | .error e => ⟨.error e, 1, []⟩
    | .ok collab_data =>
      match visualize_international_collaboration_front collab_data with
      | .error e => ⟨.error e, 1, ["colaboracion_internacional.json"]⟩
      | .ok _ => ⟨.ok collab_data, 1, ["colaboracion_internacional.json"]⟩

/-- Insertion step of a descending sort by `citas`, modelling
`df_authors.sort_values('citas', ascending=False)`. -/
def insertByCitas (a : AuthorData) : List AuthorData → List AuthorData
  | [] => [a]
  | b :: t => if b.citas < a.citas then a :: b :: t else b :: insertByCitas a t

/-- Descending sort by `citas` of the loaded author records. -/
def sortByCitasDesc (l : List AuthorData) : List AuthorData :=
  l.foldr insertByCitas []

/-- The `analysis_results` dict written to analisis_resumido.json by
`create_summary_analysis` (lines 763-777). -/
structure Summary where
  autores_total : ℕ
  mas_productivos : List (Option String × String × ℕ)
  mas_citados : List (Option String × String × ℕ)
  instituciones_total : ℕ
  mas_productivas : List (Option String × ℕ × ℕ)
  paises_total : ℕ
  principales_colaboradores : List (String × ℕ × ℚ)
deriving DecidableEq, Repr

/-- Embedding of `create_summary_analysis` (lines 716-784).  Each input
is the parsed content of one previously saved file, `none` when the file
is missing or unreadable: the surrounding bare `except:` block then
substitutes the empty default.  The function is total — no execution
path raises — and always ends by writing analisis_resumido.json. -/
def create_summary_analysis (authorsFile : Option (List AuthorData))
    (instFile : Option (List InstData))
    (collabFile : Option (List (String × ℕ × ℚ))) : Summary × List String :=
  let top_authors := authorsFile.getD []
  let top_institutions := instFile.getD []
  let collab_data := collabFile.getD []
  (⟨top_authors.length,
    top_authors.map (fun a => (a.nombre, a.institucion, a.publicaciones_total)),
    (sortByCitasDesc top_authors).map (fun a => (a.nombre, a.institucion, a.citas)),
    top_institutions.length,
    top_institutions.map (fun i => (i.nombre, i.publicaciones, i.citas)),
    collab_data.length,
    collab_data.map (fun c =>
      (c.1.replace "https://openalex.org/countries/" "", c.2.1, c.2.2))⟩,
   ["analisis_resumido.json"])

theorem mem_dictUpsert {α : Type} {d : List (String × α)} {k : String}
    {v : α} {e : String × α} (h : e ∈ dictUpsert d k v) :
    e ∈ d ∨ e = (k, v) := by
  unfold dictUpsert at h
  split at h
  · rcases List.mem_map.mp h with ⟨p, hp, he⟩
    by_cases hk : p.1 = k
    · right; rw [if_pos hk] at he; exact he.symm
    · left; rw [if_neg hk] at he; exact he ▸ hp
  · rcases List.mem_append.mp h with h1 | h1
    · exact .inl h1
    · exact .inr (List.mem_singleton.mp h1)

theorem self_mem_dictUpsert {α : Type} (d : List (String × α)) (k : String)
    (v : α) : (k, v) ∈ dictUpsert d k v := by
  unfold dictUpsert
  split
  · rename_i hmem
    rcases List.mem_map.mp hmem with ⟨p, hp, hpk⟩
    exact List.mem_map.mpr ⟨p, hp, by rw [if_pos hpk]⟩
  · exact List.mem_append.mpr (.inr (List.mem_singleton.mpr rfl))

theorem dictUpsert_key_val {α : Type} {d : List (String × α)} {k : String}
    {v w : α} (h : (k, w) ∈ dictUpsert d k v) : w = v := by
  unfold dictUpsert at h
  split at h
  · rcases List.mem_map.mp h with ⟨p, hp, he⟩
    by_cases hk : p.1 = k
    · rw [if_pos hk] at he; exact (Prod.mk.injEq _ _ _ _ ▸ he).2.symm
    · rw [if_neg hk] at he; exact absurd (congrArg Prod.fst he) hk
  · rename_i hmem
    rcases List.mem_append.mp h with h1 | h1
    · exact absurd (List.mem_map.mpr ⟨_, h1, rfl⟩) hmem
    · exact ((Prod.mk.injEq _ _ _ _).mp (List.mem_singleton.mp h1)).2

theorem dictUpsert_preserve {α : Type} {d : List (String × α)} {k : String}
    {v : α} {e : String × α} (he : e ∈ d) (hne : e.1 ≠ k) :
    e ∈ dictUpsert d k v := by
  unfold dictUpsert
  split
  · exact List.mem_map.mpr ⟨e, he, by rw [if_neg hne]⟩
  · exact List.mem_append.mpr (.inl he)

theorem dictUpsert_fresh {α : Type} {d : List (String × α)} {k : String}
    (h : k ∉ d.map Prod.fst) (v : α) : dictUpsert d k v = d ++ [(k, v)] := by
  unfold dictUpsert
  exact if_neg h

theorem percentage_ok_total_ne_zero {c t : ℕ} {v : ℚ}
    (h : percentage c t = .ok v) : t ≠ 0 := by
  intro h0
  simp [percentage, h0] at h

theorem percentage_of_ne_zero {c t : ℕ} (h : t ≠ 0) :
    percentage c t = .ok ((c : ℚ) / (t : ℚ) * 100) := by
  simp [percentage, h]

theorem percentage_ok_val {c t : ℕ} {v : ℚ} (h : percentage c t = .ok v) :
    v = (c : ℚ) / (t : ℚ) * 100 := by
  unfold percentage at h
  split at h
  · exact absurd h (by simp)
  · exact (Except.ok.injEq _ _ ▸ h).symm

theorem percentage_bounds {c t : ℕ} {v : ℚ} (hle : c ≤ t)
    (h : percentage c t = .ok v) : 0 ≤ v ∧ v ≤ 100 := by
  have ht := percentage_ok_total_ne_zero h
  have hv := percentage_ok_val h
  have htpos : (0 : ℚ) < t := by exact_mod_cast Nat.pos_of_ne_zero ht
  constructor
  · rw [hv]; positivity
  · rw [hv]
    have h1 : (c : ℚ) / t ≤ 1 := by
      rw [div_le_one htpos]; exact_mod_cast hle
    nlinarith

theorem groupByDict_mem {total : ℕ} {skip : String → Bool} :
    ∀ {items : List GroupByItem} {d out : List (String × ℕ × ℚ)},
      groupByDict total skip d items = .ok out → ∀ e ∈ out,
        e ∈ d ∨ ∃ it ∈ items, skip it.key = false ∧ e.1 = it.key ∧
          e.2.1 = it.count ∧ percentage it.count total = .ok e.2.2 := by
  intro items
  induction items with
  | nil =>
    intro d out h e he
    simp only [groupByDict] at h
    exact .inl ((Except.ok.injEq _ _ ▸ h) ▸ he)
  | cons it rest ih =>
    intro d out h e he
    by_cases hs : skip it.key
    · rw [groupByDict, if_pos hs] at h
      rcases ih h e he with h1 | ⟨it2, hm2, h2⟩
      · exact .inl h1
      · exact .inr ⟨it2, List.mem_cons_of_mem _ hm2, h2⟩
    · rw [groupByDict, if_neg hs] at h
      cases hp : percentage it.count total with
      | error e2 => rw [hp] at h; exact absurd h (by simp)
      | ok p =>
        rw [hp] at h
        rcases ih h e he with h1 | ⟨it2, hm2, h2⟩
        · rcases mem_dictUpsert h1 with h3 | h3
          · exact .inl h3
          · refine .inr ⟨it, List.mem_cons_self _ _,
              Bool.not_eq_true _ ▸ hs, ?_, ?_, ?_⟩ <;> rw [h3]
            · exact hp.symm ▸ hp
        · exact .inr ⟨it2, List.mem_cons_of_mem _ hm2, h2⟩

theorem groupByDict_zero_total {skip : String → Bool} :
    ∀ {items : List GroupByItem} {d out : List (String × ℕ × ℚ)},
      groupByDict 0 skip d items = .ok out → ∀ it ∈ items,
        skip it.key = true := by
  intro items
  induction items with
  | nil => intro d out h it hit; exact absurd hit (List.not_mem_nil _)
  | cons it0 rest ih =>
    intro d out h it hit
    by_cases hs : skip it0.key
    · rw [groupByDict, if_pos hs] at h
      rcases List.mem_cons.mp hit with h1 | h1
      · exact h1 ▸ hs
      · exact ih h it h1
    · rw [groupByDict, if_neg hs] at h
      rw [show percentage it0.count 0 = .error .zeroDivisionError from by
        simp [percentage]] at h
      exact absurd h (by simp)

theorem groupByDict_isOk {total : ℕ} (skip : String → Bool) (ht : total ≠ 0) :
    ∀ (items : List GroupByItem) (d : List (String × ℕ × ℚ)),
      ∃ out, groupByDict total skip d items = .ok out := by
  intro items
  induction items with
  | nil => intro d; exact ⟨d, rfl⟩
  | cons it rest ih =>
    intro d
    by_cases hs : skip it.key
    · rw [groupByDict, if_pos hs]; exact ih d
    · rw [groupByDict, if_neg hs, percentage_of_ne_zero ht]
      exact ih _

theorem groupByDict_nodup {total : ℕ} {skip : String → Bool} (ht : total ≠ 0) :
    ∀ (items : List GroupByItem) (d : List (String × ℕ × ℚ)),
      (items.map GroupByItem.key).Nodup →
      (∀ it ∈ items, skip it.key = false → it.key ∉ d.map Prod.fst) →
      groupByDict total skip d items =
        .ok (d ++ (items.filter (fun it => !skip it.key)).map
          (fun it => (it.key, it.count, (it.count : ℚ) / (total : ℚ) * 100))) := by
  intro items
  induction items with
  | nil => intro d _ _; simp [groupByDict]
  | cons it rest ih =>
    intro d hnd hfresh
    have hnd2 := (List.nodup_cons.mp (List.map_cons _ _ _ ▸ hnd)).2
    have hhead := (List.nodup_cons.mp (List.map_cons _ _ _ ▸ hnd)).1
    by_cases hs : skip it.key
    · rw [groupByDict, if_pos hs]
      rw [ih d hnd2 (fun it2 h2 hs2 => hfresh it2 (List.mem_cons_of_mem _ h2) hs2)]
      simp [List.filter_cons, hs]
    · rw [groupByDict, if_neg hs, percentage_of_ne_zero ht]
      dsimp only
      rw [dictUpsert_fresh (hfresh it (List.mem_cons_self _ _)
        (Bool.not_eq_true _ ▸ hs)) _]
      rw [ih (d ++ [(it.key, it.count, (it.count : ℚ) / (total : ℚ) * 100)]) hnd2 ?_]
      · simp [List.filter_cons, hs]
      · intro it2 h2 hs2
        rw [List.map_append]
        intro hmem
        rcases List.mem_append.mp hmem with h3 | h3
        · exact hfresh it2 (List.mem_cons_of_mem _ h2) hs2 h3
        · simp only [List.map_cons, List.map_nil, List.mem_singleton] at h3
          exact hhead (h3 ▸ List.mem_map.mpr ⟨it2, h2, rfl⟩)

theorem processArea_bounds {total : ℕ} {nombre : String} {r : AreaResponses}
    {d : AreaData} {q : ℕ}
    (h : processArea total nombre r = (.ok (some d), q))
    (h1 : ∀ c, r.meta = some c → c ≤ total)
    (h2 : ∀ c coa, r.meta = some c → r.metaOA = some coa → coa ≤ c)
    (h3 : ∀ c items, r.meta = some c → r.oaTypes = some items →
      ∀ it ∈ items, it.count ≤ c) :
    (0 ≤ d.porcentaje ∧ d.porcentaje ≤ 100) ∧
    (∀ p, d.porcentaje_oa = some p → 0 ≤ p ∧ p ≤ 100) ∧
    (∀ oas, d.oa_status = some oas → ∀ e ∈ oas, 0 ≤ e.2.2 ∧ e.2.2 ≤ 100) := by
  unfold processArea at h
  cases hm : r.meta with
  | none => rw [hm] at h; exact absurd h (by simp)
  | some count =>
    rw [hm] at h
    dsimp only at h
    cases hp : percentage count total with
    | error e => rw [hp] at h; exact absurd h (by simp)
    | ok porcentaje =>
      rw [hp] at h
      dsimp only at h
      have hb1 := percentage_bounds (h1 count hm) hp
      cases hoa : r.metaOA with
      | none =>
        rw [hoa] at h
        simp only [Prod.mk.injEq, Except.ok.injEq, Option.some.injEq] at h
        rw [← h.1]
        exact ⟨hb1, fun p hp2 => absurd hp2 (by simp),
               fun oas ho2 => absurd ho2 (by simp)⟩
      | some count_oa =>
        rw [hoa] at h
        dsimp only at h
        cases hp2 : percentage count_oa count with
        | error e => rw [hp2] at h; exact absurd h (by simp)
        | ok porcentaje_oa =>
          rw [hp2] at h
          dsimp only at h
          have hb2 := percentage_bounds (h2 count count_oa hm hoa) hp2
          cases hot : r.oaTypes with
          | none =>
            rw [hot] at h
            simp only [Prod.mk.injEq, Except.ok.injEq, Option.some.injEq] at h
            rw [← h.1]
            refine ⟨hb1, ?_, fun oas ho2 => absurd ho2 (by simp)⟩
            intro p hp3
            simp only [Option.some.injEq] at hp3
            exact hp3 ▸ hb2
          | some items =>
            rw [hot] at h
            dsimp only at h
            cases hod : oaTypesData count items with
            | error e => rw [hod] at h; exact absurd h (by simp)
            | ok oa_data =>
              rw [hod] at h
              dsimp only at h
              simp only [Prod.mk.injEq, Except.ok.injEq, Option.some.injEq] at h
              rw [← h.1]
              refine ⟨hb1, ?_, ?_⟩
              · intro p hp3
                simp only [Option.some.injEq] at hp3
                exact hp3 ▸ hb2
              · intro oas ho2 e2 he2
                simp only [Option.some.injEq] at ho2
                rcases groupByDict_mem (ho2 ▸ hod) e2 he2 with h4 | ⟨it, hit, _, _, _, hpe⟩
                · exact absurd h4 (List.not_mem_nil _)
                · exact percentage_bounds (h3 count items hm hot it hit) hpe

theorem processArea_queries_le {total : ℕ} {nombre : String}
    {r : AreaResponses} : (processArea total nombre r).2 ≤ 3 := by
  unfold processArea
  rcases r with ⟨_ | c, _ | coa, _ | items⟩ <;> dsimp only <;>
    repeat' first
      | omega
      | split

theorem processAreas_mem {total : ℕ} :
    ∀ {areas : List (String × String)} {resp : String → AreaResponses}
      {out : List (String × AreaData)} {q : ℕ},
      processAreas total areas resp = (.ok out, q) → ∀ p ∈ out,
        ∃ nombre q2, processArea total nombre (resp p.1) = (.ok (some p.2), q2) := by
  intro areas
  induction areas with
  | nil =>
    intro resp out q h p hp
    simp only [processAreas, Prod.mk.injEq, Except.ok.injEq] at h
    exact absurd (h.1 ▸ hp) (List.not_mem_nil _)
  | cons a rest ih =>
    intro resp out q h p hp
    rw [processAreas] at h
    cases hpa : processArea total a.2 (resp a.1) with
    | mk res q1 =>
      rw [hpa] at h
      cases res with
      | error e => exact absurd h (by simp)
      | ok od =>
        cases od with
        | none =>
          cases hrec : processAreas total rest resp with
          | mk res2 q2 =>
            rw [hrec] at h
            simp only [Prod.mk.injEq] at h
            exact ih (by rw [hrec, h.1]) p hp
        | some d =>
          cases hrec : processAreas total rest resp with
          | mk res2 q2 =>
            rw [hrec] at h
            cases res2 with
            | error e => exact absurd h (by simp)
            | ok l =>
              simp only [Prod.mk.injEq, Except.ok.injEq] at h
              rcases List.mem_cons.mp (h.1 ▸ hp) with h2 | h2
              · exact ⟨a.2, q1, by rw [h2]; exact hpa⟩
              · exact ih (by rw [hrec]) p h2

theorem processAreas_queries_le {total : ℕ} :
    ∀ {areas : List (String × String)} {resp : String → AreaResponses},
      (processAreas total areas resp).2 ≤ 3 * areas.length := by
  intro areas
  induction areas with
  | nil => intro resp; simp [processAreas]
  | cons a rest ih =>
    intro resp
    rw [processAreas]
    have hq := @processArea_queries_le total a.2 (resp a.1)
    have hr := @ih resp
    cases hpa : processArea total a.2 (resp a.1) with
    | mk res q1 =>
      rw [hpa] at hq
      cases res with
      | error e => simpa using by omega
      | ok od =>
        cases od with
        | none =>
          cases hrec : processAreas total rest resp with
          | mk res2 q2 =>
            rw [hrec] at hr
            simp only [List.length_cons]
            simp only at hq hr ⊢
            omega
        | some d =>
          cases hrec : processAreas total rest resp with
          | mk res2 q2 =>
            rw [hrec] at hr
            cases res2 <;> simp only [List.length_cons] <;>
              simp only at hq hr ⊢ <;> omega

theorem processArea_noraise {total : ℕ} (nombre : String) (r : AreaResponses)
    (ht : total ≠ 0)
    (hc : ∀ c, r.meta = some c → r.metaOA.isSome → 0 < c) :
    ∃ x q, processArea total nombre r = (.ok x, q) := by
  unfold processArea
  cases hm : r.meta with
  | none => exact ⟨none, 1, rfl⟩
  | some count =>
    dsimp only
    rw [percentage_of_ne_zero ht]
    dsimp only
    cases hoa : r.metaOA with
    | none => exact ⟨_, 2, rfl⟩
    | some count_oa =>
      dsimp only
      have hcp : count ≠ 0 := by
        have := hc count hm (by rw [hoa]; rfl)
        omega
      rw [percentage_of_ne_zero hcp]
      dsimp only
      cases hot : r.oaTypes with
      | none => exact ⟨_, 3, rfl⟩
      | some items =>
        dsimp only
        rcases groupByDict_isOk (fun _ => false) hcp items [] with ⟨out, hout⟩
        rw [show oaTypesData count items = .ok out from hout]
        exact ⟨_, 3, rfl⟩

theorem processAreas_noraise {total : ℕ} (ht : total ≠ 0) :
    ∀ {areas : List (String × String)} {resp : String → AreaResponses},
      (∀ id c, (resp id).meta = some c → (resp id).metaOA.isSome → 0 < c) →
      ∃ l q, processAreas total areas resp = (.ok l, q) := by
  intro areas
  induction areas with
  | nil => intro resp _; exact ⟨[], 0, rfl⟩
  | cons a rest ih =>
    intro resp hc
    rcases processArea_noraise a.2 (resp a.1) ht (hc a.1)
      with ⟨x, q, hx⟩
    rcases ih hc with ⟨l, q2, hl⟩
    rw [processAreas, hx, hl]
    cases x with
    | none => exact ⟨l, q + q2, rfl⟩
    | some d => exact ⟨(a.1, d) :: l, q + q2, rfl⟩

theorem processAreas_all_failed {total : ℕ} :
    ∀ {areas : List (String × String)} {resp : String → AreaResponses},
      (∀ id, (resp id).meta = none) →
      processAreas total areas resp = (.ok [], areas.length) := by
  intro areas
  induction areas with
  | nil => intro resp _; rfl
  | cons a rest ih =>
    intro resp hall
    rw [processAreas]
    rw [show processArea total a.2 (resp a.1) = (.ok none, 1) from by
      unfold processArea; rw [hall a.1]]
    rw [ih hall]
    dsimp only
    simp [List.length_cons, Nat.add_comm]

theorem dfColumns_head_mem {r : Row} {df : List Row} {c : String}
    (h : c ∈ r.map Prod.fst) : c ∈ dfColumns (r :: df) := by
  unfold dfColumns
  rw [List.mem_dedup]
  exact List.mem_flatten.mpr ⟨r.map Prod.fst, by simp, h⟩

theorem visualize_fields_data_front_ok {l : List (String × AreaData)}
    (h : l ≠ []) : visualize_fields_data_front l = .ok () := by
  rcases l with _ | ⟨p, rest⟩
  · exact absurd rfl h
  · have hcol : "publicaciones" ∈
        dfColumns (areaRow p.1 p.2 :: rest.map (fun x => areaRow x.1 x.2)) :=
      dfColumns_head_mem (by simp [areaRow])
    by_cases hc : "porcentaje_oa" ∈
        dfColumns (areaRow p.1 p.2 :: rest.map (fun x => areaRow x.1 x.2))
    · simp [visualize_fields_data_front, df_sort_values, hcol, hc, Except.map,
        Except.bind, Bind.bind]
      rfl
    · simp [visualize_fields_data_front, df_sort_values, hcol, hc, Except.map,
        Except.bind, Bind.bind]
      rfl

theorem visualize_top_authors_front_ok {l : List AuthorData} (h : l ≠ []) :
    visualize_top_authors_front l = .ok () := by
  rcases l with _ | ⟨a, rest⟩
  · exact absurd rfl h
  · have hcol : "publicaciones_total" ∈
        dfColumns (authorRow a :: rest.map authorRow) :=
      dfColumns_head_mem (by simp [authorRow])
    have hcol2 : "citas" ∈
        dfColumns (authorRow a :: List.take 14 (rest.map authorRow)) :=
      dfColumns_head_mem (by simp [authorRow])
    simp [visualize_top_authors_front, df_sort_values, hcol, hcol2, Except.map,
      Except.bind, Bind.bind]
    rfl

theorem visualize_top_institutions_front_ok {l : List InstData} (h : l ≠ []) :
    visualize_top_institutions_front l = .ok () := by
  rcases l with _ | ⟨a, rest⟩
  · exact absurd rfl h
  · have hcol : "publicaciones" ∈ dfColumns (instRow a :: rest.map instRow) :=
      dfColumns_head_mem (by simp [instRow])
    simp [visualize_top_institutions_front, df_sort_values, hcol, Except.map,
      Except.bind, Bind.bind]
    rfl

theorem visualize_international_collaboration_front_ok
    {l : List (String × ℕ × ℚ)} (h : l ≠ []) :
    visualize_international_collaboration_front l = .ok () := by
  rcases l with _ | ⟨a, rest⟩
  · exact absurd rfl h
  · have hcol : "publicaciones" ∈ dfColumns (collabRow a :: rest.map collabRow) :=
      dfColumns_head_mem (by simp [collabRow])
    simp [visualize_international_collaboration_front, df_sort_values, hcol,
      Except.map, Except.bind, Bind.bind]
    rfl

example : (get_top_authors none).result = .ok [] := by decide
example : (get_oa_stats 0 (some 5) none).result = .error .zeroDivisionError := by
  decide
example :
    (get_data_by_field 0 (fun _ => ⟨none, none, none⟩)).writes =
      ["datos_por_areas.json"] := by decide
example : (get_data_by_field 0 (fun _ => ⟨none, none, none⟩)).queries = 13 := by
  decide

theorem sum_pct (total : ℕ) (items : List GroupByItem) :
    ((items.map (fun it => (it.count : ℚ) / (total : ℚ) * 100)).sum) =
      (items.map (fun it => (it.count : ℚ))).sum / (total : ℚ) * 100 := by
  induction items with
  | nil => simp
  | cons it rest ih =>
    simp only [List.map_cons, List.sum_cons, ih]
    ring

/-- C1: every percentage field written to an output file — the
`percentage` fields of datos_tipos_oa.json, the `percentage` fields of
colaboracion_internacional.json, and the `porcentaje`, `porcentaje_oa`
and per-OA-status `percentage` fields of datos_por_areas.json — lies in
the interval [0, 100], provided each count in the corresponding API
response does not exceed its stated denominator (`total_publications`
for country-level fields, the area's publication count for per-area OA
fields). -/
theorem c1_percentages_in_range :
    (∀ (total : ℕ) (items : List GroupByItem) (out : List (String × ℕ × ℚ)),
      oaTypesData total items = .ok out →
      (∀ it ∈ items, it.count ≤ total) →
      ∀ e ∈ out, 0 ≤ e.2.2 ∧ e.2.2 ≤ 100) ∧
    (∀ (total : ℕ) (items : List GroupByItem) (out : List (String × ℕ × ℚ)),
      collabData total items = .ok out →
      (∀ it ∈ items, it.count ≤ total) →
      ∀ e ∈ out, 0 ≤ e.2.2 ∧ e.2.2 ≤ 100) ∧
    (∀ (total : ℕ) (resp : String → AreaResponses)
       (out : List (String × AreaData)),
      (get_data_by_field total resp).result = .ok out →
      (∀ id c, (resp id).meta = some c → c ≤ total) →
      (∀ id c coa, (resp id).meta = some c → (resp id).metaOA = some coa →
        coa ≤ c) →
      (∀ id c items, (resp id).meta = some c → (resp id).oaTypes = some items →
        ∀ it ∈ items, it.count ≤ c) →
      ∀ p ∈ out,
        (0 ≤ p.2.porcentaje ∧ p.2.porcentaje ≤ 100) ∧
        (∀ v, p.2.porcentaje_oa = some v → 0 ≤ v ∧ v ≤ 100) ∧
        (∀ oas, p.2.oa_status = some oas →
          ∀ e ∈ oas, 0 ≤ e.2.2 ∧ e.2.2 ≤ 100)) := by
  refine ⟨?_, ?_, ?_⟩
  · intro total items out hok hle e he
    rcases groupByDict_mem hok e he with h1 | ⟨it, hit, _, _, _, hpe⟩
    · exact absurd h1 (List.not_mem_nil _)
    · exact percentage_bounds (hle it hit) hpe
  · intro total items out hok hle e he
    rcases groupByDict_mem hok e he with h1 | ⟨it, hit, _, _, _, hpe⟩
    · exact absurd h1 (List.not_mem_nil _)
    · exact percentage_bounds (hle it hit) hpe
  · intro total resp out hok h1 h2 h3 p hp
    unfold get_data_by_field at hok
    cases hpa : processAreas total areas_conocimiento resp with
    | mk res q =>
      rw [hpa] at hok
      cases res with
      | error e => exact absurd hok (by simp)
      | ok l =>
        dsimp only at hok
        cases hv : visualize_fields_data_front l with
        | error e => rw [hv] at hok; exact absurd hok (by simp)
        | ok u =>
          rw [hv] at hok
          simp only [Except.ok.injEq] at hok
          rcases processAreas_mem (by rw [hpa, hok]) p hp
            with ⟨nombre, q2, hparea⟩
          exact processArea_bounds hparea (h1 p.1) (h2 p.1) (h3 p.1)

/-- C1 witness: the first conjunct evaluated on a concrete group-by
response with total 4 and counts 1 and 3. -/
theorem c1_percentages_in_range_witness :
    0 ≤ ("gold", (1 : ℕ), (25 : ℚ)).2.2 ∧ ("gold", (1 : ℕ), (25 : ℚ)).2.2 ≤ 100 :=
  c1_percentages_in_range.1 4 [⟨"gold", 1⟩, ⟨"closed", 3⟩]
    [("gold", 1, 25), ("closed", 3, 75)]
    (by norm_num [oaTypesData, groupByDict, percentage, dictUpsert]
        all_goals decide)
    (by decide) _ (List.mem_cons_self _ _)

/-- C2 counterexample: with `total_publications` still at its `__init__`
value 0 (general stats skipped or failed) and a successful OA count
response, `get_oa_stats` raises `ZeroDivisionError` on line 147 — the
existence checks guard only the presence of the response, not a zero
denominator, so the claimed guarantee is false. -/
theorem c2_counterexample :
    (get_oa_stats initial_total_publications (some 5) none).result =
      .error .zeroDivisionError := by decide

/-- C2 amended: the existence checks guard only response presence, not
zero denominators.  What does hold: when `total_publications` is
positive, `get_oa_stats` and `get_international_collaboration` never
raise `ZeroDivisionError`; and `get_data_by_field` never raises it
provided additionally every area whose OA count query gets a response
has a positive publication count (a zero per-area count with a
successful OA query raises on line 248). -/
theorem c2_amended_division_guards :
    (∀ (total : ℕ) (r1 : Option ℕ) (r2 : Option (List GroupByItem)),
      0 < total →
      (get_oa_stats total r1 r2).result ≠ .error .zeroDivisionError) ∧
    (∀ (total : ℕ) (resp : String → AreaResponses), 0 < total →
      (∀ id c, (resp id).meta = some c → (resp id).metaOA.isSome → 0 < c) →
      (get_data_by_field total resp).result ≠ .error .zeroDivisionError) ∧
    (∀ (total : ℕ) (resp : Option (List GroupByItem)), 0 < total →
      (get_international_collaboration total resp).result ≠
        .error .zeroDivisionError) := by
  refine ⟨?_, ?_, ?_⟩
  · intro total r1 r2 htpos
    have ht : total ≠ 0 := by omega
    unfold get_oa_stats
    cases r1 with
    | none => simp
    | some total_oa =>
      dsimp only
      rw [percentage_of_ne_zero ht]
      dsimp only
      cases r2 with
      | none => simp
      | some items =>
        dsimp only
        rcases groupByDict_isOk (fun _ => false) ht items []
          with ⟨out, hout⟩
        rw [show oaTypesData total items = .ok out from hout]
        simp
  · intro total resp htpos hc
    have ht : total ≠ 0 := by omega
    rcases processAreas_noraise ht hc with ⟨l, q, hl⟩
    unfold get_data_by_field
    rw [hl]
    dsimp only
    by_cases hl0 : l = []
    · subst hl0
      rw [show visualize_fields_data_front [] = .error .keyError from by decide]
      simp
    · rw [visualize_fields_data_front_ok hl0]
      simp
  · intro total resp htpos
    have ht : total ≠ 0 := by omega
    unfold get_international_collaboration
    cases resp with
    | none => simp
    | some items =>
      dsimp only
      rcases groupByDict_isOk (fun k => k == "EC") ht items []
        with ⟨out, hout⟩
      rw [show collabData total items = .ok out from hout]
      dsimp only
      by_cases h0 : out = []
      · subst h0
        rw [show visualize_international_collaboration_front [] =
          .error .keyError from by decide]
        simp
      · rw [visualize_international_collaboration_front_ok h0]
        simp

/-- C2 amended witness: a successful run with one publication. -/
theorem c2_amended_division_guards_witness :
    (get_oa_stats 1 (some 1) none).result ≠ .error .zeroDivisionError :=
  c2_amended_division_guards.1 1 (some 1) none (by decide)

/-- C3 counterexample: on empty input every pandas-backed rendering
function raises `KeyError` — `pd.DataFrame([])` has no columns, so the
unconditional `sort_values` on the first data column fails — refuting
the claim that the rendering functions tolerate empty input. -/
theorem c3_counterexample :
    visualize_fields_data_front [] = .error .keyError ∧
    visualize_top_authors_front [] = .error .keyError ∧
    visualize_top_institutions_front [] = .error .keyError ∧
    visualize_international_collaboration_front [] = .error .keyError := by
  refine ⟨?_, ?_, ?_, ?_⟩ <;> decide

/-- C3 amended: the rendering functions tolerate partial input — any
nonempty record list, in particular entries missing the optional
`porcentaje_oa` and `oa_status` fields, renders without raising — but
they raise `KeyError` on empty input (their pandas front ends sort on a
column that an empty DataFrame does not have). -/
theorem c3_amended_render_tolerance :
    (∀ l : List (String × AreaData), l ≠ [] →
      visualize_fields_data_front l = .ok ()) ∧
    (∀ l : List AuthorData, l ≠ [] → visualize_top_authors_front l = .ok ()) ∧
    (∀ l : List InstData, l ≠ [] →
      visualize_top_institutions_front l = .ok ()) ∧
    (∀ l : List (String × ℕ × ℚ), l ≠ [] →
      visualize_international_collaboration_front l = .ok ()) :=
  ⟨fun _ => visualize_fields_data_front_ok,
   fun _ => visualize_top_authors_front_ok,
   fun _ => visualize_top_institutions_front_ok,
   fun _ => visualize_international_collaboration_front_ok⟩

/-- C3 amended witness: one area entry with both optional fields
missing renders fine. -/
theorem c3_amended_render_tolerance_witness :
    visualize_fields_data_front
      [("https://openalex.org/C41008148",
        ⟨"Computer science", 3, 20, none, none, none⟩)] = .ok () :=
  c3_amended_render_tolerance.1 _ (by decide)

/-- C5: the per-category `percentage` fields that `get_oa_stats` writes
to datos_tipos_oa.json sum to exactly 100 precisely when the group-by
counts sum to `total_publications` (stated for responses with distinct
group-by keys, as the OpenAlex group-by endpoint returns one entry per
category). -/
theorem c5_oa_percentages_sum :
    ∀ (total : ℕ) (items : List GroupByItem) (out : List (String × ℕ × ℚ)),
      0 < total → (items.map GroupByItem.key).Nodup →
      oaTypesData total items = .ok out →
      ((out.map (fun e => e.2.2)).sum = 100 ↔
        (items.map GroupByItem.count).sum = total) := by
  intro total items out htpos hnd hok
  have ht : total ≠ 0 := by omega
  unfold oaTypesData at hok
  rw [groupByDict_nodup ht items [] hnd (by simp)] at hok
  simp only [List.nil_append, Except.ok.injEq, Bool.not_false,
    List.filter_true] at hok
  subst hok
  rw [List.map_map]
  have hsum := sum_pct total items
  have htq : (0 : ℚ) < (total : ℚ) := by exact_mod_cast htpos
  have hb : (((items.map GroupByItem.count).sum : ℕ) : ℚ) =
      (items.map (fun it => (it.count : ℚ))).sum := by
    rw [Nat.cast_list_sum, List.map_map]
    rfl
  have hrw : ((fun e : String × ℕ × ℚ => e.2.2) ∘
      (fun it : GroupByItem =>
        (it.key, it.count, (it.count : ℚ) / (total : ℚ) * 100))) =
      (fun it : GroupByItem => (it.count : ℚ) / (total : ℚ) * 100) := rfl
  constructor
  · intro h
    rw [hrw, hsum] at h
    have h2 : (items.map (fun it => (it.count : ℚ))).sum = (total : ℚ) := by
      field_simp at h
      linarith
    have h3 : (((items.map GroupByItem.count).sum : ℕ) : ℚ) = (total : ℚ) :=
      hb.trans h2
    exact_mod_cast h3
  · intro h
    rw [hrw, hsum, ← hb, h]
    field_simp

/-- C5 witness: counts 1 and 3 with total 4 — the written percentages
25 and 75 sum to 100 and indeed 1 + 3 = 4. -/
theorem c5_oa_percentages_sum_witness :
    ([("gold", (1 : ℕ), (25 : ℚ)), ("closed", 3, 75)].map
      (fun e => e.2.2)).sum = 100 ↔
      (([⟨"gold", 1⟩, ⟨"closed", 3⟩] : List GroupByItem).map
        GroupByItem.count).sum = 4 :=
  c5_oa_percentages_sum 4 [⟨"gold", 1⟩, ⟨"closed", 3⟩]
    [("gold", 1, 25), ("closed", 3, 75)] (by decide) (by decide)
    (by norm_num [oaTypesData, groupByDict, percentage, dictUpsert]
        all_goals decide)

/-- C4 counterexample: when every query of `get_data_by_field` fails,
the method still writes datos_por_areas.json (the write on line 276 is
outside every response check), refuting the claim that a failing step
leaves disk artifacts unchanged. -/
theorem c4_counterexample :
    (get_data_by_field initial_total_publications
      (fun _ => ⟨none, none, none⟩)).writes = ["datos_por_areas.json"] := by
  decide

/-- C4 amended: on a failed query, `get_general_stats`, `get_oa_stats`,
`get_top_authors`, `get_top_institutions` and
`get_international_collaboration` do return nothing (`None`, `[]` or
`{}`), issue no retry (one `query_api` call per request position,
each a single `requests.get`), leave `total_publications` unchanged and
write nothing; but `get_data_by_field` skips failed areas yet still
writes datos_por_areas.json — and when every area failed, its rendering
then raises `KeyError`. -/
theorem c4_amended_failure_behavior :
    (∀ total : ℕ, get_general_stats total none = (total, ⟨.ok none, 1, []⟩)) ∧
    (∀ (total : ℕ) (r2 : Option (List GroupByItem)),
      get_oa_stats total none r2 = ⟨.ok none, 1, []⟩) ∧
    (∀ total c : ℕ, total ≠ 0 →
      get_oa_stats total (some c) none = ⟨.ok none, 2, []⟩) ∧
    (get_top_authors none = ⟨.ok [], 1, []⟩) ∧
    (get_top_institutions none = ⟨.ok [], 1, []⟩) ∧
    (∀ total : ℕ, get_international_collaboration total none = ⟨.ok [], 1, []⟩) ∧
    (∀ (total : ℕ) (resp : String → AreaResponses),
      (∀ id, (resp id).meta = none) →
      (get_data_by_field total resp).writes = ["datos_por_areas.json"] ∧
      (get_data_by_field total resp).result = .error .keyError) := by
  refine ⟨fun _ => rfl, fun _ _ => rfl, ?_, rfl, rfl, fun _ => rfl, ?_⟩
  · intro total c ht
    unfold get_oa_stats
    dsimp only
    rw [percentage_of_ne_zero ht]
  · intro total resp hall
    unfold get_data_by_field
    rw [processAreas_all_failed hall]
    dsimp only
    rw [show visualize_fields_data_front [] = .error .keyError from by decide]
    exact ⟨rfl, rfl⟩

/-- C4 amended witness: `get_oa_stats` with a successful first query, a
failed second query and nonzero total returns `None` after two queries
and writes nothing. -/
theorem c4_amended_failure_behavior_witness :
    get_oa_stats 7 (some 3) none = ⟨.ok none, 2, []⟩ :=
  c4_amended_failure_behavior.2.2.1 7 3 (by decide)

/-- C6: `create_summary_analysis` never raises (the embedding is a total
function: every load is wrapped in a bare `except:` that substitutes
defaults), and for every combination of missing input files it uses
total 0 and empty record lists for the missing ones while still writing
analisis_resumido.json. -/
theorem c6_summary_defaults :
    ∀ (a : Option (List AuthorData)) (i : Option (List InstData))
      (c : Option (List (String × ℕ × ℚ))),
      (create_summary_analysis a i c).2 = ["analisis_resumido.json"] ∧
      (a = none → (create_summary_analysis a i c).1.autores_total = 0 ∧
        (create_summary_analysis a i c).1.mas_productivos = [] ∧
        (create_summary_analysis a i c).1.mas_citados = []) ∧
      (i = none → (create_summary_analysis a i c).1.instituciones_total = 0 ∧
        (create_summary_analysis a i c).1.mas_productivas = []) ∧
      (c = none → (create_summary_analysis a i c).1.paises_total = 0 ∧
        (create_summary_analysis a i c).1.principales_colaboradores = []) := by
  intro a i c
  refine ⟨rfl, ?_, ?_, ?_⟩ <;> rintro rfl <;>
    simp [create_summary_analysis, sortByCitasDesc]

/-- C6 witness: all three input files missing. -/
theorem c6_summary_defaults_witness :
    (create_summary_analysis none none none).1.autores_total = 0 ∧
    (create_summary_analysis none none none).1.mas_productivos = [] ∧
    (create_summary_analysis none none none).1.mas_citados = [] :=
  (c6_summary_defaults none none none).2.1 rfl

/-- C7 counterexample: `get_oa_stats` with both responses successful
issues two API queries, not one, refuting the claim that every
extraction method performs exactly one query. -/
theorem c7_counterexample :
    (get_oa_stats 100 (some 50) (some [⟨"gold", 50⟩])).queries ≠ 1 := by
  decide

/-- C7 amended: `get_general_stats`, `get_top_authors`,
`get_top_institutions` and `get_international_collaboration` issue
exactly one query; `get_oa_stats` issues one on a failed first query and
two once the first succeeds (with nonzero total); `get_data_by_field`
issues up to three queries per knowledge area, 39 in total. -/
theorem c7_amended_query_counts :
    (∀ (total : ℕ) (r : Option ℕ), (get_general_stats total r).2.queries = 1) ∧
    (∀ r : Option (List Author), (get_top_authors r).queries = 1) ∧
    (∀ r : Option (List Institution), (get_top_institutions r).queries = 1) ∧
    (∀ (total : ℕ) (r : Option (List GroupByItem)),
      (get_international_collaboration total r).queries = 1) ∧
    (∀ (total : ℕ) (r2 : Option (List GroupByItem)),
      (get_oa_stats total none r2).queries = 1) ∧
    (∀ (total c : ℕ) (r2 : Option (List GroupByItem)), total ≠ 0 →
      (get_oa_stats total (some c) r2).queries = 2) ∧
    (∀ (total : ℕ) (resp : String → AreaResponses),
      (get_data_by_field total resp).queries ≤ 3 * areas_conocimiento.length) := by
  refine ⟨?_, ?_, ?_, ?_, fun _ _ => rfl, ?_, ?_⟩
  · intro total r; cases r <;> rfl
  · intro r
    cases r with
    | none => rfl
    | some results =>
      unfold get_top_authors
      dsimp only
      cases h : visualize_top_authors_front ((results.take 20).map mkAuthorData)
        <;> rfl
  · intro r
    cases r with
    | none => rfl
    | some results =>
      unfold get_top_institutions
      dsimp only
      cases h :
        visualize_top_institutions_front ((results.take 15).map mkInstData)
        <;> rfl
  · intro total r
    cases r with
    | none => rfl
    | some items =>
      unfold get_international_collaboration
      dsimp only
      cases h : collabData total items with
      | error e => rfl
      | ok d =>
        dsimp only
        cases h2 : visualize_international_collaboration_front d <;> rfl
  · intro total c r2 ht
    unfold get_oa_stats
    dsimp only
    rw [percentage_of_ne_zero ht]
    dsimp only
    cases r2 with
    | none => rfl
    | some items =>
      dsimp only
      cases h : oaTypesData total items <;> rfl
  · intro total resp
    have hq := @processAreas_queries_le total areas_conocimiento resp
    unfold get_data_by_field
    cases hpa : processAreas total areas_conocimiento resp with
    | mk res q =>
      rw [hpa] at hq
      cases res with
      | error e => exact hq
      | ok l =>
        dsimp only
        cases h2 : visualize_fields_data_front l <;> exact hq

/-- C7 amended witness: a concrete successful `get_oa_stats` run issues
two queries. -/
theorem c7_amended_query_counts_witness :
    (get_oa_stats 5 (some 2) none).queries = 2 :=
  c7_amended_query_counts.2.2.2.2.2.1 5 2 none (by decide)

/-- C8: `query_api` always sends a `mailto` parameter equal to the
configured email — it is present, any `mailto` entry carries exactly the
configured email, and every caller-supplied parameter with another key
is passed through unchanged. -/
theorem c8_mailto_param :
    ∀ (email : String) (params : Option (List (String × String))),
      ("mailto", email) ∈ query_api_params email params ∧
      (∀ v, ("mailto", v) ∈ query_api_params email params → v = email) ∧
      (∀ kv ∈ params.getD [], kv.1 ≠ "mailto" →
        kv ∈ query_api_params email params) :=
  fun _ _ =>
    ⟨self_mem_dictUpsert _ _ _,
     fun _ hv => dictUpsert_key_val hv,
     fun _ hkv hne => dictUpsert_preserve hkv hne⟩

/-- C8 witness: a concrete call with one caller parameter. -/
theorem c8_mailto_param_witness :
    ("per_page", "1") ∈
      query_api_params "freddy.sumba@cedia.org.ec" (some [("per_page", "1")]) :=
  (c8_mailto_param "freddy.sumba@cedia.org.ec" (some [("per_page", "1")])).2.2
    ("per_page", "1") (by decide) (by decide)

/-- C9: `get_top_authors` returns at most 20 authors — exactly the first
20 results mapped to author records — and `get_top_institutions` at most
15, while the requests ask for 50 and 25 records respectively, sorted by
works_count descending. -/
theorem c9_top_n_truncation :
    (∀ (resp : Option (List Author)) (l : List AuthorData),
      (get_top_authors resp).result = .ok l → l.length ≤ 20) ∧
    (∀ (results : List Author) (l : List AuthorData),
      (get_top_authors (some results)).result = .ok l →
      l = (results.take 20).map mkAuthorData) ∧
    (∀ (resp : Option (List Institution)) (l : List InstData),
      (get_top_institutions resp).result = .ok l → l.length ≤ 15) ∧
    (("per_page", "50") ∈ params_authors ∧
      ("sort", "works_count:desc") ∈ params_authors) ∧
    (("per_page", "25") ∈ params_institutions ∧
      ("sort", "works_count:desc") ∈ params_institutions) := by
  have hsome : ∀ (results : List Author) (l : List AuthorData),
      (get_top_authors (some results)).result = .ok l →
      l = (results.take 20).map mkAuthorData := by
    intro results l h
    unfold get_top_authors at h
    dsimp only at h
    cases h2 : visualize_top_authors_front ((results.take 20).map mkAuthorData)
      with
    | error e => rw [h2] at h; exact absurd h (by simp)
    | ok u =>
      rw [h2] at h
      simp only [Except.ok.injEq] at h
      exact h.symm
  refine ⟨?_, hsome, ?_, ⟨by decide, by decide⟩, ⟨by decide, by decide⟩⟩
  · intro resp l h
    cases resp with
    | none =>
      simp only [get_top_authors, Except.ok.injEq] at h
      rw [← h]
      decide
    | some results =>
      rw [hsome results l h]
      simp only [List.length_map]
      exact le_trans (List.length_take_le _ _) (le_refl 20)
  · intro resp l h
    cases resp with
    | none =>
      simp only [get_top_institutions, Except.ok.injEq] at h
      rw [← h]
      decide
    | some results =>
      unfold get_top_institutions at h
      dsimp only at h
      cases h2 :
        visualize_top_institutions_front ((results.take 15).map mkInstData) with
      | error e => rw [h2] at h; exact absurd h (by simp)
      | ok u =>
        rw [h2] at h
        simp only [Except.ok.injEq] at h
        rw [← h]
        simp only [List.length_map]
        exact le_trans (List.length_take_le _ _) (le_refl 15)

/-- C9 witness: the failed-query case returns the empty author list. -/
theorem c9_top_n_truncation_witness : ([] : List AuthorData).length ≤ 20 :=
  c9_top_n_truncation.1 none [] (by decide)

/-- C10: the collaboration mapping built by
`get_international_collaboration` never contains the key `'EC'`, and
(for responses with distinct keys) every other group-by key appears in
it with its count unchanged and its percentage computed from
`total_publications`. -/
theorem c10_ec_excluded :
    ∀ (total : ℕ) (items : List GroupByItem) (out : List (String × ℕ × ℚ)),
      collabData total items = .ok out →
      (∀ e ∈ out, e.1 ≠ "EC") ∧
      ((items.map GroupByItem.key).Nodup → ∀ it ∈ items, it.key ≠ "EC" →
        (it.key, it.count, (it.count : ℚ) / (total : ℚ) * 100) ∈ out) := by
  intro total items out hok
  constructor
  · intro e he
    rcases groupByDict_mem hok e he with h1 | ⟨it, _, hskip, hkey, _, _⟩
    · exact absurd h1 (List.not_mem_nil _)
    · rw [hkey]
      exact fun hEC => by simp [hEC] at hskip
  · intro hnd it hit hne
    by_cases ht : total = 0
    · subst ht
      have := groupByDict_zero_total hok it hit
      simp only [beq_iff_eq] at this
      exact absurd this hne
    · unfold collabData at hok
      rw [groupByDict_nodup ht items [] hnd (by simp)] at hok
      simp only [List.nil_append, Except.ok.injEq] at hok
      subst hok
      refine List.mem_map.mpr ⟨it, List.mem_filter.mpr ⟨hit, ?_⟩, rfl⟩
      simp [hne]

/-- C10 witness: a group-by response containing Ecuador and one partner
country — the partner is kept with its count, at total 4. -/
theorem c10_ec_excluded_witness :
    ("US", (2 : ℕ), ((2 : ℕ) : ℚ) / ((4 : ℕ) : ℚ) * 100) ∈
      [(("US" : String), (2 : ℕ), (50 : ℚ))] :=
  (c10_ec_excluded 4 [⟨"EC", 9⟩, ⟨"US", 2⟩] [("US", 2, 50)]
    (by norm_num [collabData, groupByDict, percentage, dictUpsert]
        all_goals decide)).2
    (by decide) ⟨"US", 2⟩ (by decide) (by decide)
